import Mathlib

/-!
Verification of the ZPA bulk app-segment provisioning scripts
(`zpa/import_segments.py` and `zpa/segment_maker.py`).

The two scripts are embedded shallowly: the external Zscaler SDK client is
modelled as a record of response functions (one per API call used), and a
run is modelled as the pair of the counters the script accumulates together
with the ordered trace of the observable actions it performs (create calls
and the skip/failure reports it prints).
-/

/-- Splitting a character list at every occurrence of a separator, keeping
empty pieces (the semantics of Python `str.split(sep)`). -/
def splitChars (sep : Char) : List Char → List (List Char)
  | [] => [[]]
  | c :: cs =>
    let r := splitChars sep cs
    if c = sep then [] :: r
    else
      match r with
      | t :: ts => (c :: t) :: ts
      | [] => [[c]]

/-- Python `str.split(sep)` for a one-character separator: splits at every
occurrence and keeps empty pieces, so the empty string yields one empty
piece. -/
def pySplit (sep : Char) (s : String) : List String :=
  (splitChars sep s.data).map (fun l => String.mk l)

/-- Auxiliary to `pyStrip`: drop whitespace from both ends of a character
list. -/
def stripChars (l : List Char) : List Char :=
  ((l.dropWhile Char.isWhitespace).reverse.dropWhile Char.isWhitespace).reverse

/-- Python `str.strip()`: remove leading and trailing whitespace. -/
def pyStrip (s : String) : String :=
  String.mk (stripChars s.data)

/-- Python `str.lower()` (restricted, as in the source's use, to the ASCII
case folding of `Char.toLower`). -/
def pyLower (s : String) : String :=
  String.mk (s.data.map Char.toLower)

/-- Python truthiness of an optional CSV cell value: `None` and the empty
string are falsy, every other string is truthy (`row.get(col)` tests). -/
def truthy : Option String → Bool
  | none => false
  | some s => s ≠ ""

/-- One CSV input row as produced by `csv.DictReader`: each recognized
column is either absent or holds a string. -/
structure RawRecord where
  NAME : Option String := none
  DESCRIPTION : Option String := none
  ENABLED : Option String := none
  SEGMENT_GROUP_ID : Option String := none
  SERVER_GROUP_IDS : Option String := none
  DOMAINS : Option String := none
  TCP_PORTS : Option String := none
  UDP_PORTS : Option String := none
  DOUBLE_ENCRYPT : Option String := none
  IS_BROWSER_ACCESS : Option String := none
  IS_PRA : Option String := none
  IS_INSPECTION : Option String := none
deriving Repr, DecidableEq

/-- A single-port range dictionary: Python builds them as
a pair with keys from and to (the source never uses range syntax). -/
structure PortRange where
  lo : String
  hi : String
deriving Repr, DecidableEq

/-- An existing tenant application segment as returned by
`client.application_segment.list_segments()`: the scripts read its
`name`, `domain_names` and `tcp_port_range` attributes. -/
structure Segment where
  id : String := ""
  name : String := ""
  domain_names : List String := []
  tcp_port_range : List PortRange := []
deriving Repr, DecidableEq

namespace ImportSegments

/-- Function `str2bool` of `import_segments.py`: the lower-cased string must be one
of 1, true, yes, y. -/
def str2bool (value : String) : Bool :=
  ["1", "true", "yes", "y"].contains (pyLower value)

/-- Function `parse_ports` of `import_segments.py` (line 27): strip the whole
string, split on commas, keep each stripped token that is non-empty. -/
def parse_ports (port_string : String) : List String :=
  let ports := pySplit ',' (pyStrip port_string)
  (ports.filter (fun p => pyStrip p ≠ "")).map (fun p => pyStrip p)

/-- The dictionary produced by `import_segments.parse_csv_row` for a row
that passes its raw-field check. -/
structure Row where
  name : String
  description : String
  enabled : Bool
  segment_group_name : String
  server_group_names : List String
  domain_names : List String
  tcp_ports : List String
  udp_ports : List String
  double_encrypt : Bool
  is_browser_access : Bool
  is_pra : Bool
  is_inspection : Bool
deriving Repr, DecidableEq

/-- Function `parse_csv_row` of `import_segments.py` (line 31): rejects the row when
the raw `NAME`, `DOMAINS` or `SERVER_GROUP_IDS` value is falsy (absent or
empty, with no trimming); otherwise builds the row dictionary.  Note that
the `SERVER_GROUP_IDS` and `DOMAINS` splits keep empty tokens, unlike
`parse_ports`. -/
def parse_csv_row (row : RawRecord) : Option Row :=
  if truthy row.NAME && truthy row.DOMAINS && truthy row.SERVER_GROUP_IDS then
    some
      { name := pyStrip (row.NAME.getD "")
        description := pyStrip (row.DESCRIPTION.getD "")
        enabled := str2bool (row.ENABLED.getD "true")
        segment_group_name := pyStrip (row.SEGMENT_GROUP_ID.getD "")
        server_group_names := (pySplit ',' (row.SERVER_GROUP_IDS.getD "")).map (fun s => pyStrip s)
        domain_names := (pySplit ',' (row.DOMAINS.getD "")).map (fun s => pyStrip s)
        tcp_ports := parse_ports (row.TCP_PORTS.getD "")
        udp_ports := parse_ports (row.UDP_PORTS.getD "")
        double_encrypt := str2bool (row.DOUBLE_ENCRYPT.getD "false")
        is_browser_access := str2bool (row.IS_BROWSER_ACCESS.getD "false")
        is_pra := str2bool (row.IS_PRA.getD "false")
        is_inspection := str2bool (row.IS_INSPECTION.getD "false") }
  else
    none

/-- The keyword payload passed to `client.application_segment.add_segment`
at line 88 of `import_segments.py`. -/
structure CreatePayload where
  name : String
  description : String
  enabled : Bool
  segment_group_id : String
  server_group_ids : List String
  domain_names : List String
  tcp_port_range : List PortRange
  udp_port_range : List PortRange
  double_encrypt : Bool
  app_protection_enabled : Bool
deriving Repr, DecidableEq

/-- Observable actions of one run of `create_and_configure_segments`:
the three kinds of create call issued to the client, the failure reports,
and the three skip reports printed before any create call for a row. -/
inductive Event where
  | skipExisting (name : String)
  | skipMissingServerGroups (name : String) (missing : List String)
  | skipMissingSegmentGroup (name : String) (group : String)
  | parentCreate (payload : CreatePayload)
  | parentCreateFailed (name err : String)
  | baCreate (segment_id name domain port protocol : String)
  | baCreateFailed (name err : String)
  | praCreate (segment_id name domain port protocol : String)
  | praCreateFailed (name err : String)
deriving Repr, DecidableEq

/-- An event that is an API create call (parent segment, BA child or PRA
child). -/
def Event.isCreateCall : Event → Bool
  | .parentCreate _ => true
  | .baCreate _ _ _ _ _ => true
  | .praCreate _ _ _ _ _ => true
  | _ => false

/-- An event that is a child-application create call. -/
def Event.isChildCreate : Event → Bool
  | .baCreate _ _ _ _ _ => true
  | .praCreate _ _ _ _ _ => true
  | _ => false

/-- An event that reports an unresolved server/segment-group reference. -/
def Event.isUnresolvedReport : Event → Bool
  | .skipMissingServerGroups _ _ => true
  | .skipMissingSegmentGroup _ _ => true
  | _ => false

/-- The SDK client of `import_segments.py`, modelled as the responses of
the three create endpoints the loop calls: `add_segment` answers with the
created segment id or an error, the BA and PRA endpoints answer with an
optional error (arguments: segment id, name, domain, port, protocol). -/
structure Client where
  add_segment : CreatePayload → Except String String
  ba_add_segment : String → String → String → String → String → Option String
  pra_add_segment : String → String → String → String → String → Option String

/-- Protocol inference for Browser Access children (line 110):
HTTPS for ports 443 and 8443, HTTP otherwise. -/
def baProtocol (port : String) : String :=
  if ["443", "8443"].contains port then "HTTPS" else "HTTP"

/-- Protocol inference for Privileged Remote Access children (line 122):
SSH for port 22, RDP for port 3389, nothing otherwise. -/
def praProtocol (port : String) : Option String :=
  if port == "22" then some "SSH" else if port == "3389" then some "RDP" else none

/-- One Browser Access child creation for a (domain, port) pair
(lines 110-115): returns the number of successfully configured apps
(0 or 1) and the trace. -/
def baPair (client : Client) (segment_id domain port : String) : Nat × List Event :=
  let protocol := baProtocol port
  let ba_name := domain ++ ":" ++ port
  match client.ba_add_segment segment_id ba_name domain port protocol with
  | some err => (0, [.baCreate segment_id ba_name domain port protocol, .baCreateFailed ba_name err])
  | none => (1, [.baCreate segment_id ba_name domain port protocol])

/-- One Privileged Remote Access child creation for a (domain, port) pair
(lines 122-128): a pair whose port maps to no protocol is skipped silently. -/
def praPair (client : Client) (segment_id domain port : String) : Nat × List Event :=
  match praProtocol port with
  | none => (0, [])
  | some protocol =>
    let pra_name := protocol ++ "-" ++ domain ++ ":" ++ port
    match client.pra_add_segment segment_id pra_name domain port protocol with
    | some err => (0, [.praCreate segment_id pra_name domain port protocol, .praCreateFailed pra_name err])
    | none => (1, [.praCreate segment_id pra_name domain port protocol])

/-- The nested `for domain in ... for port in ...` loops of the BA block
(lines 108-115), in iteration order. -/
def processBA (client : Client) (segment_id : String) (row : Row) : Nat × List Event :=
  let results := row.domain_names.flatMap (fun d => row.tcp_ports.map (fun p => baPair client segment_id d p))
  ((results.map Prod.fst).sum, results.flatMap Prod.snd)

/-- The nested loops of the PRA block (lines 120-128), in iteration order. -/
def processPRA (client : Client) (segment_id : String) (row : Row) : Nat × List Event :=
  let results := row.domain_names.flatMap (fun d => row.tcp_ports.map (fun p => praPair client segment_id d p))
  ((results.map Prod.fst).sum, results.flatMap Prod.snd)

/-- The `create_payload` dictionary built at line 88 for a validated row;
the reference maps are total by the validation guards, so indexing is
modelled with a default. -/
def rowPayload (server_groups_map segment_groups_map : String → Option String) (row : Row) : CreatePayload :=
  { name := row.name
    description := row.description
    enabled := row.enabled
    segment_group_id := (segment_groups_map row.segment_group_name).getD ""
    server_group_ids := row.server_group_names.map (fun sg => (server_groups_map sg).getD "")
    domain_names := row.domain_names
    tcp_port_range := row.tcp_ports.map (fun p => ⟨p, p⟩)
    udp_port_range := row.udp_ports.map (fun p => ⟨p, p⟩)
    double_encrypt := row.double_encrypt
    app_protection_enabled := row.is_inspection }

/-- The skip decision of line 66 of `import_segments.py`:
`if not force and name in existing_segment_names`. -/
def rowSkipped (force : Bool) (existing_segment_names : List String) (row : Row) : Bool :=
  !force && existing_segment_names.contains row.name

/-- The unresolved server-group names collected at line 74:
`[sg for sg in server_group_names if sg not in server_groups_map]`. -/
def rowMissingSGs (server_groups_map : String → Option String) (row : Row) : List String :=
  row.server_group_names.filter (fun sg => (server_groups_map sg).isNone)

/-- Outcome of a run (or of one loop iteration) of
`create_and_configure_segments`: the two counters the function returns and
the trace of observable actions. -/
structure RunResult where
  created_count : Nat
  configured_apps : Nat
  trace : List Event
deriving Repr, DecidableEq

/-- One iteration of the row loop of `create_and_configure_segments`
(lines 63-128): skip when the name is already present (unless forced),
skip on unresolved references, otherwise create the parent and, on
success, the requested child applications. -/
def processRow (client : Client) (server_groups_map segment_groups_map : String → Option String)
    (force : Bool) (existing_segment_names : List String) (row : Row) : RunResult :=
  let name := row.name
  if rowSkipped force existing_segment_names row then
    ⟨0, 0, [.skipExisting name]⟩
  else
    let missing_sgs := rowMissingSGs server_groups_map row
    if !missing_sgs.isEmpty then
      ⟨0, 0, [.skipMissingServerGroups name missing_sgs]⟩
    else if (segment_groups_map row.segment_group_name).isNone then
      ⟨0, 0, [.skipMissingSegmentGroup name row.segment_group_name]⟩
    else
      let create_payload := rowPayload server_groups_map segment_groups_map row
      match client.add_segment create_payload with
      | .error err => ⟨0, 0, [.parentCreate create_payload, .parentCreateFailed name err]⟩
      | .ok segment_id =>
        let ba := if row.is_browser_access then processBA client segment_id row else (0, [])
        let pra := if row.is_pra then processPRA client segment_id row else (0, [])
        ⟨1, ba.1 + pra.1, .parentCreate create_payload :: (ba.2 ++ pra.2)⟩

/-- Function `create_and_configure_segments` of `import_segments.py` (lines 56-130):
the row loop, accumulating the created / configured counters and the
action trace across all rows. -/
def create_and_configure_segments (client : Client)
    (server_groups_map segment_groups_map : String → Option String)
    (force : Bool) (existing_segment_names : List String) : List Row → RunResult
  | [] => ⟨0, 0, []⟩
  | row :: rows =>
    let r := processRow client server_groups_map segment_groups_map force existing_segment_names row
    let rest := create_and_configure_segments client server_groups_map segment_groups_map force existing_segment_names rows
    ⟨r.created_count + rest.created_count, r.configured_apps + rest.configured_apps, r.trace ++ rest.trace⟩

/-- The pre-fetch of existing segment names in `main` (lines 149-155): on a
listing error the set is left empty, otherwise it holds the listed names. -/
def existingNamesFromListing (res : Except String (List Segment)) : List String :=
  match res with
  | .error _ => []
  | .ok segs => segs.map (fun s => s.name)

/-- The validation of lines 74-80 passes: all server-group names and the
segment-group name resolve in the reference maps. -/
def rowValid (server_groups_map segment_groups_map : String → Option String) (row : Row) : Bool :=
  (rowMissingSGs server_groups_map row).isEmpty
    && (segment_groups_map row.segment_group_name).isSome

/-- The row reaches the parent create call of line 98 and that call
succeeds: the row is not skipped as existing, its references resolve, and
`add_segment` answers without error. -/
def parentSucceeds (client : Client) (server_groups_map segment_groups_map : String → Option String)
    (force : Bool) (existing_segment_names : List String) (row : Row) : Bool :=
  !rowSkipped force existing_segment_names row
    && rowValid server_groups_map segment_groups_map row
    && (client.add_segment (rowPayload server_groups_map segment_groups_map row)).isOk

end ImportSegments

namespace SegmentMaker

/-- Function `str2bool` of `segment_maker.py` (line 9), identical to the import
script's. -/
def str2bool (value : String) : Bool :=
  ["1", "true", "yes", "y"].contains (pyLower value)

/-- Function `parse_ports` of `segment_maker.py` (line 45): strips the whole
string, splits on commas and turns each non-empty stripped token `p`
into a single-port range pair from p to p. -/
def parse_ports (port_string : String) : List PortRange :=
  let ports := pySplit ',' (pyStrip port_string)
  (ports.filter (fun p => pyStrip p ≠ "")).map (fun p => ⟨pyStrip p, pyStrip p⟩)

/-- The validated payload dictionary built by `segment_maker.parse_csv_row`
and passed verbatim to `add_segment` by `create_app_segments`. -/
structure Payload where
  name : String
  description : String
  enabled : Bool
  segment_group_id : String
  server_group_ids : List String
  domain_names : List String
  tcp_port_range : List PortRange
  udp_port_range : List PortRange
  double_encrypt : Bool
deriving Repr, DecidableEq

/-- Function `parse_csv_row` of `segment_maker.py` (lines 54-105): trims the name
and segment-group name, splits and filters the server-group and domain
lists, collects validation errors (empty name, missing/unknown segment
group, empty domain list, unknown server-group names, no resolved
server-group id) and returns the payload only when no error was
collected.  The advisory suggestion strings of the error messages are not
modelled; only whether the row is rejected is. -/
def parse_csv_row (row : RawRecord) (server_groups segment_groups : String → Option String) :
    Option Payload :=
  let name := pyStrip (row.NAME.getD "")
  let segment_group_name := pyStrip (row.SEGMENT_GROUP_ID.getD "")
  let server_group_names :=
    ((pySplit ',' (row.SERVER_GROUP_IDS.getD "")).map (fun s => pyStrip s)).filter (fun s => s ≠ "")
  let domain_names :=
    ((pySplit ',' (row.DOMAINS.getD "")).map (fun s => pyStrip s)).filter (fun s => s ≠ "")
  let server_group_ids := server_group_names.filterMap server_groups
  let hasErrors :=
    name == "" ||
    (segment_group_name == "" || (segment_groups segment_group_name).isNone) ||
    domain_names.isEmpty ||
    server_group_names.any (fun sg => (server_groups sg).isNone) ||
    server_group_ids.isEmpty
  if hasErrors then
    none
  else
    some
      { name := name
        description := pyStrip (row.DESCRIPTION.getD "")
        enabled := str2bool (row.ENABLED.getD "true")
        segment_group_id := (segment_groups segment_group_name).getD ""
        server_group_ids := server_group_ids
        domain_names := domain_names
        tcp_port_range := parse_ports (row.TCP_PORTS.getD "")
        udp_port_range := parse_ports (row.UDP_PORTS.getD "")
        double_encrypt := str2bool (row.DOUBLE_ENCRYPT.getD "false") }

/-- Function `segment_exists` of `segment_maker.py` (lines 107-122): on a listing
error it answers false (fail-open); otherwise it answers whether some
existing segment's domain list contains the candidate domain and its TCP
port range equals the candidate's structurally. -/
def segment_exists (listing : Except String (List Segment)) (domain : String)
    (ports : List PortRange) : Bool :=
  match listing with
  | .error _ => false
  | .ok segments => segments.any (fun s => s.domain_names.contains domain && s.tcp_port_range == ports)

/-- Observable actions of `create_app_segments`: the skip report, the
create call, and the per-row success / failure report. -/
inductive SMEvent where
  | skipped (domain : String) (ports : List PortRange)
  | createCall (payload : Payload)
  | created (name : String)
  | failed (name err : String)
deriving Repr, DecidableEq

/-- The SDK client of `segment_maker.py`: the segment listing consulted by
`segment_exists` on every iteration (a read-only snapshot during the run)
and the `add_segment` endpoint's responses. -/
structure SMClient where
  list_segments : Except String (List Segment)
  add_segment : Payload → Except String Segment

/-- The skip decision of line 135 of `segment_maker.py`: the existence
check keys on the row's FIRST domain (`domain_names[0]`, modelled with a
default since validated rows always carry a domain) and the full TCP
port-range list. -/
def smSkipped (client : SMClient) (force_creation : Bool) (row : Payload) : Bool :=
  !force_creation && segment_exists client.list_segments (row.domain_names.headD "") row.tcp_port_range

/-- The row is not skipped and its `add_segment` call succeeds. -/
def smSucceeds (client : SMClient) (force_creation : Bool) (row : Payload) : Bool :=
  !smSkipped client force_creation row && (client.add_segment row).isOk

/-- One iteration of the row loop of `create_app_segments` (lines 131-144):
skip when an equivalent segment already exists (unless forced), otherwise
submit the create call. -/
def processSMRow (client : SMClient) (force_creation : Bool) (row : Payload) : Nat × List SMEvent :=
  let domain := row.domain_names.headD ""
  let ports := row.tcp_port_range
  if smSkipped client force_creation row then
    (0, [.skipped domain ports])
  else
    match client.add_segment row with
    | .error err => (0, [.createCall row, .failed row.name err])
    | .ok _ => (1, [.createCall row, .created row.name])

/-- Function `create_app_segments` of `segment_maker.py` (lines 124-145): the row
loop, accumulating the created counter and the action trace. -/
def create_app_segments (client : SMClient) (force_creation : Bool) : List Payload → Nat × List SMEvent
  | [] => (0, [])
  | row :: rows =>
    let r := processSMRow client force_creation row
    let rest := create_app_segments client force_creation rows
    (r.1 + rest.1, r.2 ++ rest.2)

end SegmentMaker

namespace ImportSegments

/-- A client whose every create call succeeds, used to evaluate concrete
runs. -/
def demoClient : Client :=
  ⟨fun _ => .ok "id1", fun _ _ _ _ _ => none, fun _ _ _ _ _ => none⟩

/-- A client whose parent create call always fails. -/
def demoFailClient : Client :=
  ⟨fun _ => .error "boom", fun _ _ _ _ _ => none, fun _ _ _ _ _ => none⟩

/-- A reference map resolving only the server-group name sg1. -/
def demoServerGroups : String → Option String :=
  fun n => if n == "sg1" then some "101" else none

/-- A reference map resolving the server-group names sg1 and the empty
name. -/
def demoServerGroupsWithEmpty : String → Option String :=
  fun n => if n == "sg1" then some "101" else if n == "" then some "102" else none

/-- A reference map resolving only the segment-group name grp. -/
def demoSegmentGroups : String → Option String :=
  fun n => if n == "grp" then some "201" else none

/-- A valid demonstration row named seg-A requesting browser access. -/
def rowSegA : Row :=
  { name := "seg-A", description := "", enabled := true, segment_group_name := "grp"
    server_group_names := ["sg1"], domain_names := ["a.example.com"], tcp_ports := ["443"]
    udp_ports := [], double_encrypt := false, is_browser_access := true, is_pra := false
    is_inspection := false }

/-- The row seg-A with a server-group name that resolves nowhere. -/
def rowBadServerGroup : Row :=
  { rowSegA with server_group_names := ["missing-sg"] }

/-- A raw record whose NAME cell is whitespace only. -/
def recWhitespaceName : RawRecord :=
  { NAME := some " ", DOMAINS := some "d.example.com", SERVER_GROUP_IDS := some "sg1" }

/-- A raw record whose DOMAINS and SERVER_GROUP_IDS cells end in a comma. -/
def recTrailingComma : RawRecord :=
  { NAME := some "seg-C9", SEGMENT_GROUP_ID := some "grp", SERVER_GROUP_IDS := some "sg1,"
    DOMAINS := some "a.example.com,", TCP_PORTS := some "443", IS_BROWSER_ACCESS := some "true" }

/-- The row `parse_csv_row` produces from `recTrailingComma`: both split
lists keep their empty trailing token. -/
def rowTrailingComma : Row :=
  { name := "seg-C9", description := "", enabled := true, segment_group_name := "grp"
    server_group_names := ["sg1", ""], domain_names := ["a.example.com", ""], tcp_ports := ["443"]
    udp_ports := [], double_encrypt := false, is_browser_access := true, is_pra := false
    is_inspection := false }

end ImportSegments

namespace SegmentMaker

/-- A payload with two domains, used to demonstrate that the existence
check only consults the first one. -/
def demoPayload : Payload :=
  { name := "seg-B", description := "", enabled := true, segment_group_id := "201"
    server_group_ids := ["101"], domain_names := ["a.example.com", "b.example.com"]
    tcp_port_range := [⟨"443", "443"⟩], udp_port_range := [], double_encrypt := false }

/-- An existing tenant segment covering only the SECOND domain of
`demoPayload`, with equal TCP ports. -/
def demoExistingSegment : Segment :=
  { id := "900", name := "other", domain_names := ["b.example.com"]
    tcp_port_range := [⟨"443", "443"⟩] }

/-- A segment-maker client whose listing holds exactly
`demoExistingSegment` and whose create call succeeds. -/
def demoSMClient : SMClient :=
  ⟨Except.ok [demoExistingSegment], fun _ => .ok {}⟩

end SegmentMaker

namespace ImportSegments

/-- A skipped row contributes nothing but its skip report. -/
theorem processRow_of_skipped (client : Client) (m1 m2 : String → Option String)
    (force : Bool) (existing : List String) (row : Row)
    (h : rowSkipped force existing row = true) :
    processRow client m1 m2 force existing row = ⟨0, 0, [Event.skipExisting row.name]⟩ := by
  unfold processRow
  simp [h]

/-- The per-row contribution to the created counter is 1 exactly when the
parent create call is reached and succeeds. -/
theorem processRow_created_eq (client : Client) (m1 m2 : String → Option String)
    (force : Bool) (existing : List String) (row : Row) :
    (processRow client m1 m2 force existing row).created_count
      = if parentSucceeds client m1 m2 force existing row then 1 else 0 := by
  unfold processRow parentSucceeds rowValid
  cases hskip : rowSkipped force existing row
  · cases hmiss : (rowMissingSGs m1 row).isEmpty
    · simp [hskip, hmiss]
    · cases hseg : m2 row.segment_group_name with
      | none => simp [hskip, hmiss, hseg]
      | some gid =>
        cases hadd : client.add_segment (rowPayload m1 m2 row) with
        | error e => simp [hskip, hmiss, hseg, hadd, Except.isOk, Except.toBool]
        | ok pid => simp [hskip, hmiss, hseg, hadd, Except.isOk, Except.toBool]
  · simp [hskip]

/-- The batch trace is the concatenation of the per-row traces, in input
order. -/
theorem create_trace_eq (client : Client) (m1 m2 : String → Option String)
    (force : Bool) (existing : List String) (rows : List Row) :
    (create_and_configure_segments client m1 m2 force existing rows).trace
      = rows.flatMap (fun r => (processRow client m1 m2 force existing r).trace) := by
  induction rows with
  | nil => rfl
  | cons r rs ih => simp [create_and_configure_segments, ih]

/-- The batch created counter counts the rows whose parent create call
succeeded. -/
theorem create_created_eq (client : Client) (m1 m2 : String → Option String)
    (force : Bool) (existing : List String) (rows : List Row) :
    (create_and_configure_segments client m1 m2 force existing rows).created_count
      = rows.countP (fun r => parentSucceeds client m1 m2 force existing r) := by
  induction rows with
  | nil => rfl
  | cons r rs ih =>
    simp [create_and_configure_segments, ih, List.countP_cons, processRow_created_eq]
    cases h : parentSucceeds client m1 m2 force existing r <;> simp [h, Nat.add_comm]

/-- Every event emitted by the Browser Access block is a child-application
event: it is an API create call exactly when it is a child create call. -/
theorem processBA_events (client : Client) (segment_id : String) (row : Row) :
    ∀ e ∈ (processBA client segment_id row).2, e.isCreateCall = e.isChildCreate := by
  intro e he
  simp only [processBA, List.mem_flatMap, List.mem_map] at he
  obtain ⟨pr, ⟨d, hd, p, hp, hpr⟩, hepr⟩ := he
  subst hpr
  unfold baPair at hepr
  rcases hcb : client.ba_add_segment segment_id (d ++ ":" ++ p) d p (baProtocol p) with _ | err <;>
    simp [hcb] at hepr <;> rcases hepr with rfl | rfl <;> rfl

/-- Every event emitted by the Privileged Remote Access block is a
child-application event. -/
theorem processPRA_events (client : Client) (segment_id : String) (row : Row) :
    ∀ e ∈ (processPRA client segment_id row).2, e.isCreateCall = e.isChildCreate := by
  intro e he
  simp only [processPRA, List.mem_flatMap, List.mem_map] at he
  obtain ⟨pr, ⟨d, hd, p, hp, hpr⟩, hepr⟩ := he
  subst hpr
  unfold praPair at hepr
  rcases hpp : praProtocol p with _ | protocol
  · simp [hpp] at hepr
  · rcases hcb : client.pra_add_segment segment_id (protocol ++ "-" ++ d ++ ":" ++ p) d p protocol with _ | err <;>
      simp [hpp, hcb] at hepr <;> rcases hepr with rfl | rfl <;> rfl

end ImportSegments

namespace SegmentMaker

/-- The per-row contribution to the created counter of
`create_app_segments` is 1 exactly when the create call is reached and
succeeds. -/
theorem processSMRow_fst_eq (client : SMClient) (force_creation : Bool) (row : Payload) :
    (processSMRow client force_creation row).1
      = if smSucceeds client force_creation row then 1 else 0 := by
  unfold processSMRow smSucceeds
  cases h : smSkipped client force_creation row
  · cases hadd : client.add_segment row with
    | error e => simp [h, hadd, Except.isOk, Except.toBool]
    | ok s => simp [h, hadd, Except.isOk, Except.toBool]
  · simp [h]

/-- The created counter of `create_app_segments` counts the rows whose
create call succeeded. -/
theorem create_app_segments_fst_eq (client : SMClient) (force_creation : Bool) (rows : List Payload) :
    (create_app_segments client force_creation rows).1
      = rows.countP (fun r => smSucceeds client force_creation r) := by
  induction rows with
  | nil => rfl
  | cons r rs ih =>
    simp [create_app_segments, ih, List.countP_cons, processSMRow_fst_eq]
    cases h : smSucceeds client force_creation r <;> simp [h, Nat.add_comm]

end SegmentMaker

open ImportSegments

/-- Claim C1, counterexample to the claim as stated: the row
`rowBadServerGroup` is named seg-A, seg-A is in the pre-fetched
existing-name set, `force` is true, and yet the run performs no create
call at all (the row is skipped by the reference validation before the
parent create call is reached). -/
theorem c1_counterexample :
    rowBadServerGroup.name ∈ (["seg-A"] : List String)
    ∧ ((processRow demoClient demoServerGroups demoSegmentGroups true ["seg-A"]
        rowBadServerGroup).trace.filter Event.isCreateCall) = [] := by
  decide

/-- Claim C1 as amended: for every row whose name is in the pre-fetched
existing-segment-name set, provisioning with force=false performs zero
create calls (neither parent nor child) and the row is recorded as
skipped; with force=true the parent create call is performed regardless
of membership, provided the row's server-group and segment-group names
all resolve in the reference maps. -/
theorem c1_theorem (client : Client) (m1 m2 : String → Option String)
    (existing : List String) (row : Row) (hmem : row.name ∈ existing) :
    (((processRow client m1 m2 false existing row).trace.filter Event.isCreateCall) = []
      ∧ processRow client m1 m2 false existing row = ⟨0, 0, [Event.skipExisting row.name]⟩)
    ∧ (rowValid m1 m2 row = true →
        (processRow client m1 m2 true existing row).trace.head?
          = some (Event.parentCreate (rowPayload m1 m2 row))) := by
  have hskip : rowSkipped false existing row = true := by
    simp [rowSkipped, hmem]
  have h1 := processRow_of_skipped client m1 m2 false existing row hskip
  refine ⟨⟨?_, h1⟩, ?_⟩
  · rw [h1]
    rfl
  · intro hvalid
    unfold rowValid at hvalid
    rw [Bool.and_eq_true] at hvalid
    obtain ⟨hmiss, hsome⟩ := hvalid
    rcases Option.isSome_iff_exists.mp hsome with ⟨gid, hgid⟩
    have hns : rowSkipped true existing row = false := by simp [rowSkipped]
    unfold processRow
    rcases hadd : client.add_segment (rowPayload m1 m2 row) with err | pid <;>
      simp [hns, hmiss, hgid, hadd]

/-- Claim C1 witness: the amended claim applied to the valid row seg-A
with seg-A already existing. -/
theorem c1_witness :
    rowSegA.name ∈ (["seg-A"] : List String)
    ∧ processRow demoClient demoServerGroups demoSegmentGroups false ["seg-A"] rowSegA
        = ⟨0, 0, [Event.skipExisting rowSegA.name]⟩
    ∧ (processRow demoClient demoServerGroups demoSegmentGroups true ["seg-A"] rowSegA).trace.head?
        = some (Event.parentCreate (rowPayload demoServerGroups demoSegmentGroups rowSegA)) :=
  ⟨by decide,
    (c1_theorem demoClient demoServerGroups demoSegmentGroups ["seg-A"] rowSegA (by decide)).1.2,
    (c1_theorem demoClient demoServerGroups demoSegmentGroups ["seg-A"] rowSegA (by decide)).2
      (by decide)⟩

/-- Claim C2: the batch runs to completion over all rows — the trace is
the concatenation of the independent per-row traces in input order (so a
failure of row N never prevents row N+1 from being processed), and the
final created count is exactly the number of rows whose parent create
call succeeded; the same created-count property holds for the
segment-maker batch loop. -/
theorem c2_theorem (client : Client) (m1 m2 : String → Option String) (force : Bool)
    (existing : List String) (rows : List Row) (smclient : SegmentMaker.SMClient)
    (force_creation : Bool) (smrows : List SegmentMaker.Payload) :
    (create_and_configure_segments client m1 m2 force existing rows).trace
        = rows.flatMap (fun r => (processRow client m1 m2 force existing r).trace)
    ∧ (create_and_configure_segments client m1 m2 force existing rows).created_count
        = rows.countP (fun r => parentSucceeds client m1 m2 force existing r)
    ∧ (SegmentMaker.create_app_segments smclient force_creation smrows).1
        = smrows.countP (fun r => SegmentMaker.smSucceeds smclient force_creation r) :=
  ⟨create_trace_eq client m1 m2 force existing rows,
   create_created_eq client m1 m2 force existing rows,
   SegmentMaker.create_app_segments_fst_eq smclient force_creation smrows⟩

/-- Claim C3: Browser Access children infer HTTPS exactly for ports 443
and 8443 and HTTP for every other port, and the BA create call for a
(domain, port) pair always carries the inferred protocol; Privileged
Remote Access children infer SSH for port 22 and RDP for port 3389, and
any other port produces no PRA child for that pair and no error. -/
theorem c3_theorem (client : Client) (segment_id domain port : String) :
    ((port = "443" ∨ port = "8443") → baProtocol port = "HTTPS")
    ∧ (port ≠ "443" → port ≠ "8443" → baProtocol port = "HTTP")
    ∧ (baPair client segment_id domain port).2.head?
        = some (Event.baCreate segment_id (domain ++ ":" ++ port) domain port (baProtocol port))
    ∧ praProtocol "22" = some "SSH"
    ∧ praProtocol "3389" = some "RDP"
    ∧ (port ≠ "22" → port ≠ "3389" → praPair client segment_id domain port = (0, [])) := by
  refine ⟨?_, ?_, ?_, by decide, by decide, ?_⟩
  · rintro (rfl | rfl) <;> rfl
  · intro h1 h2
    simp [baProtocol, h1, h2]
  · unfold baPair
    rcases h : client.ba_add_segment segment_id (domain ++ ":" ++ port) domain port
        (baProtocol port) with _ | err <;> simp [h]
  · intro h1 h2
    simp [praPair, praProtocol, h1, h2]

/-- Claim C3 witness: the protocol-inference theorem applied at ports
8443 and 80. -/
theorem c3_witness :
    baProtocol "8443" = "HTTPS" ∧ baProtocol "80" = "HTTP"
    ∧ praPair demoClient "id1" "a.example.com" "80" = (0, []) :=
  ⟨(c3_theorem demoClient "id1" "a.example.com" "8443").1 (Or.inr rfl),
   (c3_theorem demoClient "id1" "a.example.com" "80").2.1 (by decide) (by decide),
   (c3_theorem demoClient "id1" "a.example.com" "80").2.2.2.2.2 (by decide) (by decide)⟩

namespace ImportSegments

/-- Events of the conditional Browser Access block are child events. -/
theorem processBA_if_events (client : Client) (segment_id : String) (row : Row) (b : Bool) :
    ∀ e ∈ (if b then processBA client segment_id row else ((0, []) : Nat × List Event)).2,
      e.isCreateCall = e.isChildCreate := by
  cases b
  · intro e he
    simp at he
  · exact processBA_events client segment_id row

/-- Events of the conditional Privileged Remote Access block are child
events. -/
theorem processPRA_if_events (client : Client) (segment_id : String) (row : Row) (b : Bool) :
    ∀ e ∈ (if b then processPRA client segment_id row else ((0, []) : Nat × List Event)).2,
      e.isCreateCall = e.isChildCreate := by
  cases b
  · intro e he
    simp at he
  · exact processPRA_events client segment_id row

/-- The create calls of one row are either none at all, or the parent
create first followed only by child creates. -/
theorem processRow_createCalls (client : Client) (m1 m2 : String → Option String)
    (force : Bool) (existing : List String) (row : Row) :
    (processRow client m1 m2 force existing row).trace.filter Event.isCreateCall = []
    ∨ ∃ cs, (processRow client m1 m2 force existing row).trace.filter Event.isCreateCall
          = Event.parentCreate (rowPayload m1 m2 row) :: cs
        ∧ ∀ e ∈ cs, e.isChildCreate = true := by
  unfold processRow
  cases hskip : rowSkipped force existing row
  · cases hmiss : (rowMissingSGs m1 row).isEmpty
    · left
      simp [hskip, hmiss, Event.isCreateCall]
    · cases hseg : m2 row.segment_group_name with
      | none => left; simp [hskip, hmiss, hseg, Event.isCreateCall]
      | some gid =>
        rcases hadd : client.add_segment (rowPayload m1 m2 row) with err | pid
        · right
          refine ⟨[], ?_, by simp⟩
          simp [hskip, hmiss, hseg, hadd, Event.isCreateCall]
        · right
          refine ⟨((if row.is_browser_access then processBA client pid row
                else ((0, []) : Nat × List Event)).2
              ++ (if row.is_pra then processPRA client pid row
                else ((0, []) : Nat × List Event)).2).filter Event.isCreateCall, ?_, ?_⟩
          · simp [hskip, hmiss, hseg, hadd, Event.isCreateCall]
          · intro x hx
            rw [List.mem_filter] at hx
            obtain ⟨hmem, hcc⟩ := hx
            rw [List.mem_append] at hmem
            rcases hmem with hm | hm
            · rw [← processBA_if_events client pid row row.is_browser_access x hm]
              exact hcc
            · rw [← processPRA_if_events client pid row row.is_pra x hm]
              exact hcc
  · left
    simp [hskip, Event.isCreateCall]

/-- A row whose parent create call fails contributes exactly the create
call and the failure report: no child create is attempted. -/
theorem processRow_parent_fail (client : Client) (m1 m2 : String → Option String)
    (force : Bool) (existing : List String) (row : Row) (err : String)
    (hns : rowSkipped force existing row = false)
    (hvalid : rowValid m1 m2 row = true)
    (hadd : client.add_segment (rowPayload m1 m2 row) = Except.error err) :
    processRow client m1 m2 force existing row
      = ⟨0, 0, [Event.parentCreate (rowPayload m1 m2 row),
                Event.parentCreateFailed row.name err]⟩ := by
  unfold rowValid at hvalid
  rw [Bool.and_eq_true] at hvalid
  obtain ⟨hmiss, hsome⟩ := hvalid
  rcases Option.isSome_iff_exists.mp hsome with ⟨gid, hgid⟩
  unfold processRow
  simp [hns, hmiss, hgid, hadd]

end ImportSegments

/-- Claim C4: the parent create call always precedes any child create
call of the same row (the row's create-call subsequence is empty or the
parent create followed only by child creates); if the parent create
fails, no child create is attempted for that row; and the rows after it
are still processed (the batch trace of row :: rest is the row's trace
followed by the batch trace of rest). -/
theorem c4_theorem (client : Client) (m1 m2 : String → Option String) (force : Bool)
    (existing : List String) (row : Row) (rest : List Row) :
    (create_and_configure_segments client m1 m2 force existing (row :: rest)).trace
        = (processRow client m1 m2 force existing row).trace
          ++ (create_and_configure_segments client m1 m2 force existing rest).trace
    ∧ ((processRow client m1 m2 force existing row).trace.filter Event.isCreateCall = []
        ∨ ∃ cs, (processRow client m1 m2 force existing row).trace.filter Event.isCreateCall
              = Event.parentCreate (rowPayload m1 m2 row) :: cs
            ∧ ∀ e ∈ cs, e.isChildCreate = true)
    ∧ (∀ err, rowSkipped force existing row = false → rowValid m1 m2 row = true →
        client.add_segment (rowPayload m1 m2 row) = Except.error err →
        processRow client m1 m2 force existing row
          = ⟨0, 0, [Event.parentCreate (rowPayload m1 m2 row),
                    Event.parentCreateFailed row.name err]⟩) :=
  ⟨rfl,
   processRow_createCalls client m1 m2 force existing row,
   fun err hns hvalid hadd =>
     processRow_parent_fail client m1 m2 force existing row err hns hvalid hadd⟩

/-- Claim C4 witness: a failing parent create on the valid row seg-A
leaves exactly the parent create call and its failure report. -/
theorem c4_witness :
    processRow demoFailClient demoServerGroups demoSegmentGroups false [] rowSegA
      = ⟨0, 0, [Event.parentCreate (rowPayload demoServerGroups demoSegmentGroups rowSegA),
                Event.parentCreateFailed rowSegA.name "boom"]⟩ :=
  (c4_theorem demoFailClient demoServerGroups demoSegmentGroups false [] rowSegA []).2.2 "boom"
    (by decide) (by decide) rfl

/-- Claim C5: comma-separated port strings parse to single-value ranges —
"80,443,8443" to the three ranges 80-80, 443-443, 8443-8443 in order, the
empty string to the empty sequence, and in general each stripped
non-empty token t to one range from t to t in input order (in the import
script, the token list is turned into the same pairs when the create
payload is built). -/
theorem c5_theorem :
    SegmentMaker.parse_ports "80,443,8443"
        = [⟨"80", "80"⟩, ⟨"443", "443"⟩, ⟨"8443", "8443"⟩]
    ∧ SegmentMaker.parse_ports "" = []
    ∧ (∀ s : String, SegmentMaker.parse_ports s
        = (((pySplit ',' (pyStrip s)).map pyStrip).filter (fun t => t ≠ "")).map
            (fun t => (⟨t, t⟩ : PortRange)))
    ∧ ImportSegments.parse_ports "80,443,8443" = ["80", "443", "8443"]
    ∧ ImportSegments.parse_ports "" = []
    ∧ (∀ (m1 m2 : String → Option String) (row : Row),
        (rowPayload m1 m2 row).tcp_port_range
          = row.tcp_ports.map (fun p => (⟨p, p⟩ : PortRange))) := by
  refine ⟨by decide, by decide, ?_, by decide, by decide, fun m1 m2 row => rfl⟩
  intro s
  unfold SegmentMaker.parse_ports
  rw [List.filter_map, List.map_map]
  rfl

/-- Claim C6: when the segment listing errors, the attribute-keyed
existence check answers false, the pre-fetched name set is empty (so
every name-membership check answers false), and provisioning proceeds to
the create call as if the segment did not exist. -/
theorem c6_theorem (e domain name : String) (ports : List PortRange)
    (add : SegmentMaker.Payload → Except String Segment) (row : SegmentMaker.Payload) :
    SegmentMaker.segment_exists (Except.error e) domain ports = false
    ∧ existingNamesFromListing (Except.error e) = []
    ∧ (existingNamesFromListing (Except.error e)).contains name = false
    ∧ (SegmentMaker.processSMRow ⟨Except.error e, add⟩ false row).2.head?
        = some (SegmentMaker.SMEvent.createCall row) := by
  refine ⟨rfl, rfl, rfl, ?_⟩
  have hsk : SegmentMaker.smSkipped ⟨Except.error e, add⟩ false row = false := rfl
  unfold SegmentMaker.processSMRow
  rcases h : add row with err | s <;> simp [hsk, h]

/-- Claim C7, counterexample to the claim as stated: the record
`recWhitespaceName` has a whitespace-only NAME cell — empty after
trimming — yet the import script's `parse_csv_row` yields a segment
specification (with the trimmed, empty name), because its check tests the
raw value without trimming. -/
theorem c7_counterexample :
    recWhitespaceName.NAME = some " "
    ∧ pyStrip " " = ""
    ∧ ImportSegments.parse_csv_row recWhitespaceName
        = some { name := "", description := "", enabled := true, segment_group_name := ""
                 server_group_names := ["sg1"], domain_names := ["d.example.com"]
                 tcp_ports := [], udp_ports := [], double_encrypt := false
                 is_browser_access := false, is_pra := false, is_inspection := false } := by
  decide

/-- Claim C7 as amended: the strict parser (`segment_maker.parse_csv_row`)
rejects every record whose name, domain list or server-group list is
empty after trimming; the import parser (`import_segments.parse_csv_row`)
rejects a record exactly when the raw NAME, DOMAINS or SERVER_GROUP_IDS
value is missing or empty before trimming (so a whitespace-only value
passes its check). -/
theorem c7_theorem :
    (∀ (r : RawRecord) (m1 m2 : String → Option String),
        (pyStrip (r.NAME.getD "") = ""
          ∨ ((pySplit ',' (r.DOMAINS.getD "")).map (fun s => pyStrip s)).filter
              (fun s => s ≠ "") = []
          ∨ ((pySplit ',' (r.SERVER_GROUP_IDS.getD "")).map (fun s => pyStrip s)).filter
              (fun s => s ≠ "") = []) →
        SegmentMaker.parse_csv_row r m1 m2 = none)
    ∧ (∀ r : RawRecord, ImportSegments.parse_csv_row r = none
        ↔ (truthy r.NAME = false ∨ truthy r.DOMAINS = false
            ∨ truthy r.SERVER_GROUP_IDS = false)) := by
  constructor
  · intro r m1 m2 h
    unfold SegmentMaker.parse_csv_row
    rcases h with h | h | h
    · simp [h]
    · simp only [h]
      simp
    · simp only [h]
      simp
  · intro r
    unfold ImportSegments.parse_csv_row
    cases h1 : truthy r.NAME <;> cases h2 : truthy r.DOMAINS <;>
      cases h3 : truthy r.SERVER_GROUP_IDS <;> simp [h1, h2, h3]

/-- Claim C7 witness: the amended claim applied to the whitespace-named
record — the strict parser rejects it. -/
theorem c7_witness :
    SegmentMaker.parse_csv_row recWhitespaceName demoServerGroups demoSegmentGroups = none :=
  c7_theorem.1 recWhitespaceName demoServerGroups demoSegmentGroups (Or.inl (by decide))

/-- Claim C8: the attribute-keyed existence check considers only the
FIRST entry of the row's domain list — when no existing segment's domain
list contains the first domain, the row is not skipped and its create
call is submitted, even if an existing segment matches a later domain
with equal TCP port ranges. -/
theorem c8_theorem (client : SegmentMaker.SMClient) (row : SegmentMaker.Payload)
    (d1 d2 : String) (rest : List String) (segs : List Segment)
    (hdom : row.domain_names = d1 :: d2 :: rest)
    (hlist : client.list_segments = Except.ok segs)
    (h1 : ∀ s ∈ segs, s.domain_names.contains d1 = false) :
    SegmentMaker.smSkipped client false row = false
    ∧ (SegmentMaker.processSMRow client false row).2.head?
        = some (SegmentMaker.SMEvent.createCall row) := by
  have hd : row.domain_names.headD "" = d1 := by
    rw [hdom]
    rfl
  have hex : SegmentMaker.segment_exists client.list_segments d1 row.tcp_port_range = false := by
    rw [hlist]
    unfold SegmentMaker.segment_exists
    rw [List.any_eq_false]
    intro s hs
    have hns : d1 ∉ s.domain_names := by simpa using h1 s hs
    simp [hns]
  have hsk : SegmentMaker.smSkipped client false row = false := by
    unfold SegmentMaker.smSkipped
    rw [hd]
    simp [hex]
  refine ⟨hsk, ?_⟩
  unfold SegmentMaker.processSMRow
  rcases h : client.add_segment row with err | s <;> simp [hsk, h]

/-- Claim C8 witness: the two-domain payload is not skipped although the
tenant holds a segment whose domains contain the payload's second domain
with equal TCP ports. -/
theorem c8_witness :
    SegmentMaker.demoPayload.domain_names = "a.example.com" :: "b.example.com" :: []
    ∧ SegmentMaker.demoExistingSegment.domain_names.contains "b.example.com" = true
    ∧ SegmentMaker.demoExistingSegment.tcp_port_range = SegmentMaker.demoPayload.tcp_port_range
    ∧ SegmentMaker.smSkipped SegmentMaker.demoSMClient false SegmentMaker.demoPayload = false
    ∧ (SegmentMaker.processSMRow SegmentMaker.demoSMClient false SegmentMaker.demoPayload).2.head?
        = some (SegmentMaker.SMEvent.createCall SegmentMaker.demoPayload) := by
  have h := c8_theorem SegmentMaker.demoSMClient SegmentMaker.demoPayload "a.example.com"
    "b.example.com" [] [SegmentMaker.demoExistingSegment] (by decide) rfl (by decide)
  exact ⟨by decide, by decide, by decide, h.1, h.2⟩

/-- Claim C9: the import path's comma splits of SERVER_GROUP_IDS and
DOMAINS preserve empty tokens (unlike its port parsing): a trailing or
doubled comma leaves an empty-string entry that reaches the parent create
payload and is expanded into child (domain, port) pairs, and an empty
server-group token is looked up (and can be reported missing) against the
reference map. -/
theorem c9_theorem :
    (∀ (r : RawRecord) (row : Row), ImportSegments.parse_csv_row r = some row →
        row.domain_names = (pySplit ',' (r.DOMAINS.getD "")).map pyStrip
        ∧ row.server_group_names = (pySplit ',' (r.SERVER_GROUP_IDS.getD "")).map pyStrip)
    ∧ (∀ (m1 m2 : String → Option String) (row : Row),
        (rowPayload m1 m2 row).domain_names = row.domain_names)
    ∧ ImportSegments.parse_csv_row recTrailingComma = some rowTrailingComma
    ∧ "" ∈ rowTrailingComma.domain_names
    ∧ "" ∈ rowTrailingComma.server_group_names
    ∧ "" ∈ (rowPayload demoServerGroupsWithEmpty demoSegmentGroups rowTrailingComma).domain_names
    ∧ Event.baCreate "id1" ":443" "" "443" "HTTPS"
        ∈ (processRow demoClient demoServerGroupsWithEmpty demoSegmentGroups false []
            rowTrailingComma).trace
    ∧ processRow demoClient demoServerGroups demoSegmentGroups false [] rowTrailingComma
        = ⟨0, 0, [Event.skipMissingServerGroups "seg-C9" [""]]⟩ := by
  refine ⟨?_, fun m1 m2 row => rfl, by decide, by decide, by decide, by decide, by decide,
    by decide⟩
  intro r row h
  unfold ImportSegments.parse_csv_row at h
  split at h
  · injection h with h
    subst h
    exact ⟨rfl, rfl⟩
  · exact Option.noConfusion h

/-- Claim C9 witness: the general split property applied to the
trailing-comma record. -/
theorem c9_witness :
    rowTrailingComma.domain_names
        = (pySplit ',' (recTrailingComma.DOMAINS.getD "")).map pyStrip
    ∧ rowTrailingComma.server_group_names
        = (pySplit ',' (recTrailingComma.SERVER_GROUP_IDS.getD "")).map pyStrip :=
  c9_theorem.1 recTrailingComma rowTrailingComma (by decide)

/-- Claim C10: the existing-name membership check runs before reference
resolution — a row whose name is already present (with force unset) is
skipped with its sole report, the outcome does not depend on the
reference maps at all, and no unresolved-reference report is produced for
it. -/
theorem c10_theorem (client : Client) (m1 m2 m1' m2' : String → Option String)
    (existing : List String) (row : Row) (hmem : row.name ∈ existing) :
    processRow client m1 m2 false existing row = ⟨0, 0, [Event.skipExisting row.name]⟩
    ∧ processRow client m1 m2 false existing row
        = processRow client m1' m2' false existing row
    ∧ (processRow client m1 m2 false existing row).trace.filter Event.isUnresolvedReport
        = [] := by
  have hskip : rowSkipped false existing row = true := by
    simp [rowSkipped, hmem]
  have h1 := processRow_of_skipped client m1 m2 false existing row hskip
  have h2 := processRow_of_skipped client m1' m2' false existing row hskip
  refine ⟨h1, h1.trans h2.symm, ?_⟩
  rw [h1]
  rfl

/-- Claim C10 witness: the seg-A row already exists, so its outcome is
identical under the demo reference maps and under maps resolving
nothing. -/
theorem c10_witness :
    rowSegA.name ∈ (["seg-A"] : List String)
    ∧ processRow demoClient demoServerGroups demoSegmentGroups false ["seg-A"] rowSegA
        = processRow demoClient (fun _ => none) (fun _ => none) false ["seg-A"] rowSegA :=
  ⟨by decide,
    (c10_theorem demoClient demoServerGroups demoSegmentGroups (fun _ => none) (fun _ => none)
      ["seg-A"] rowSegA (by decide)).2.1⟩
